import Mathlib

/-!
# ICP_DAO proposal registry — shallow embedding and verification

This file embeds the proposal-registry canister (`createProposal`,
`voteYes`, `voteNo`, `updateProposal`, `deleteProposal`, `getProposal`)
in Lean 4 and proves or refutes the specification's claims about it.

Modelling choices:
* `Principal` values are compared in the source via `toString()`, so caller
  identities are modelled as `String`.  The one exception is
  `deleteProposal`, which compares two `Principal` objects with the raw
  JavaScript `==`: that is reference equality between two freshly decoded,
  distinct instances and therefore constant `false` (see
  `principalRefEq`).
* The `StableBTreeMap<string, Proposal>` storage is modelled as a function
  `String → Option Proposal` with pointwise `insert` / `remove`.
* The environment inputs `ic.caller()`, `ic.time()` and `uuidv4()` are
  passed as explicit arguments (`caller`, `now`, `newId`).
* `Result.Ok` / `Result.Err` mirror the tagged `Result<Proposal, string>`
  return values; every operation is a total Lean function, matching the
  source's discipline of returning failures rather than throwing.
* JavaScript `number` counters only ever take small integer values here
  and are modelled as `Nat`; `nat64` timestamps likewise.
-/

namespace ICPDAO

/-- The Proposal record of the source (`type Proposal = Record<{...}>`). -/
structure Proposal where
  owner : String
  id : String
  title : String
  description : String
  voters : List String
  yesVotes : Nat
  noVotes : Nat
  created_at : Nat
  updated_at : Option Nat
deriving DecidableEq, Repr

/-- The user payload for create/update (`type ProposalPayload`). -/
structure ProposalPayload where
  title : String
  description : String
deriving DecidableEq, Repr

/-- Tagged success/failure value, mirroring azle's `Result<A, string>`. -/
inductive Result (α : Type) where
  | Ok : α → Result α
  | Err : String → Result α
deriving DecidableEq, Repr

/-- True exactly on `Result.Ok`. -/
def Result.isOk {α : Type} : Result α → Bool
  | Result.Ok _ => true
  | Result.Err _ => false

/-- True exactly on `Result.Err`. -/
def Result.isErr {α : Type} : Result α → Bool
  | Result.Ok _ => false
  | Result.Err _ => true

/-- The `proposalStorage` map, modelled as a partial function from ids. -/
abbrev Store : Type := String → Option Proposal

/-- The empty storage. -/
def Store.empty : Store := fun _ => none

/-- `proposalStorage.get(id)`. -/
def Store.get (s : Store) (k : String) : Option Proposal := s k

/-- `proposalStorage.insert(k, v)` (overwrites any previous binding). -/
def Store.set (s : Store) (k : String) (v : Proposal) : Store :=
  fun q => if q = k then some v else s q

/-- The storage after `proposalStorage.remove(k)`. -/
def Store.del (s : Store) (k : String) : Store :=
  fun q => if q = k then none else s q

/-- `proposalStorage.remove(k)`: the removed value (an `Opt`) and the
    resulting storage. -/
def Store.removeGet (s : Store) (k : String) : Option Proposal × Store :=
  (s.get k, s.del k)

/-- The ASCII apostrophe (code 39), used to spell the source's error
    messages such as `couldn't update ...` verbatim. -/
def apos : String := String.singleton (Char.ofNat 39)

/-- `getProposal(id)`: validates `id`, then looks it up. -/
def getProposal (s : Store) (id : String) : Result Proposal :=
  if id = "" then Result.Err "Invalid id"
  else
    match s.get id with
    | some proposal => Result.Ok proposal
    | none => Result.Err ("a proposal with id=" ++ id ++ " not found")

/-- `createProposal(payload)`: rejects an empty (falsy) title or
    description, otherwise builds and stores the new record.
    `caller = ic.caller()`, `now = ic.time()`, `newId = uuidv4()`. -/
def createProposal (s : Store) (caller : String) (now : Nat) (newId : String)
    (payload : ProposalPayload) : Result Proposal × Store :=
  if payload.title = "" ∨ payload.description = "" then
    (Result.Err "Missing required fields", s)
  else
    let proposal : Proposal :=
      { owner := caller
        id := newId
        title := payload.title
        description := payload.description
        voters := []
        yesVotes := 0
        noVotes := 0
        created_at := now
        updated_at := none }
    (Result.Ok proposal, s.set proposal.id proposal)

/-- `voteYes(id)`: owner check, duplicate-voter check, then increments
    `yesVotes`, stamps `updated_at` and stores the record.  (As in the
    source, the caller is NOT appended to `voters`.) -/
def voteYes (s : Store) (caller : String) (now : Nat) (id : String) :
    Result Proposal × Store :=
  match s.get id with
  | some proposal =>
    if proposal.owner = caller then
      (Result.Err "Owners cannot vote for their own proposal", s)
    else if proposal.voters.contains caller then
      (Result.Err "Already voted", s)
    else
      let updated : Proposal :=
        { proposal with yesVotes := proposal.yesVotes + 1, updated_at := some now }
      (Result.Ok updated, s.set proposal.id updated)
  | none =>
    (Result.Err ("couldn" ++ apos ++ "t update a proposal with id=" ++ id ++
      ". proposal not found"), s)

/-- `voteNo(id)`: same checks as `voteYes`, incrementing `noVotes`. -/
def voteNo (s : Store) (caller : String) (now : Nat) (id : String) :
    Result Proposal × Store :=
  match s.get id with
  | some proposal =>
    if proposal.owner = caller then
      (Result.Err "Owners cannot vote for their own proposal", s)
    else if proposal.voters.contains caller then
      (Result.Err "Already voted", s)
    else
      let updated : Proposal :=
        { proposal with noVotes := proposal.noVotes + 1, updated_at := some now }
      (Result.Ok updated, s.set proposal.id updated)
  | none =>
    (Result.Err ("couldn" ++ apos ++ "t update a proposal with id=" ++ id ++
      ". proposal not found"), s)

/-- JavaScript `String.prototype.trim()`: drops leading and trailing
    whitespace characters.  (Defined over the character list so that it
    evaluates by kernel reduction.) -/
def jsTrim (s : String) : String :=
  String.mk
    (((s.data.dropWhile Char.isWhitespace).reverse.dropWhile
        Char.isWhitespace).reverse)

/-- `isValidPayload(payload)`: both fields must be non-empty strings that
    are not blank after trimming.  (The `typeof !== "string"` check cannot
    fire in a typed embedding.) -/
def isValidPayload (payload : ProposalPayload) : Bool :=
  if payload.title = "" ∨ jsTrim payload.title = "" then false
  else if payload.description = "" ∨ jsTrim payload.description = "" then false
  else true

/-- `updateProposal(id, payload)`: validates the payload, then replaces
    `title`/`description` and stamps `updated_at` on the stored record. -/
def updateProposal (s : Store) (now : Nat) (id : String)
    (payload : ProposalPayload) : Result Proposal × Store :=
  if isValidPayload payload = false then
    (Result.Err "Invalid payload", s)
  else
    match s.get id with
    | some proposal =>
      let updatedProposal : Proposal :=
        { proposal with
            title := payload.title
            description := payload.description
            updated_at := some now }
      (Result.Ok updatedProposal, s.set proposal.id updatedProposal)
    | none =>
      (Result.Err ("couldn" ++ apos ++ "t update a proposal with id=" ++ id ++
        ". proposal not found"), s)

/-- JavaScript `==` between two `Principal` objects, as used in
    `deleteProposal`.  Unlike the vote handlers, which compare principals
    via `toString()`, the delete guard compares the object decoded from
    stable storage with the object decoded from the call arguments;
    `==` between two distinct object instances is reference equality and
    never true, so the comparison is constant `false`. -/
def principalRefEq (_a _b : String) : Bool :=
  false

/-- `proposal.Some?.owner == user` of `deleteProposal`: false when the
    proposal is absent, and reference equality (`principalRefEq`)
    between the two `Principal` objects when it is present. -/
def ownerMatches (o : Option Proposal) (user : String) : Bool :=
  match o with
  | some proposal => principalRefEq proposal.owner user
  | none => false

/-- `deleteProposal(id, user)`: requires a non-empty id; takes the
    remove-branch only when `proposal.Some?.owner == user`, otherwise
    returns the not-found error of the `else` branch.  Since the `==`
    guard is reference equality on distinct `Principal` instances
    (`ownerMatches` is constant false), the remove-branch is dead code
    and every non-empty id reaches the `else` branch. -/
def deleteProposal (s : Store) (id : String) (user : String) :
    Result Proposal × Store :=
  if id = "" then (Result.Err "id is required", s)
  else if ownerMatches (s.get id) user then
    let rs := s.removeGet id
    match rs.1 with
    | some deletedProposal => (Result.Ok deletedProposal, rs.2)
    | none =>
      (Result.Err ("couldn" ++ apos ++ "t delete a proposal with id=" ++ id ++
        ". proposal not found."), rs.2)
  else
    (Result.Err ("couldn" ++ apos ++ "t delete a proposal ,proposal not found."), s)

/-- A sample stored proposal owned by `alice`, used for concrete runs. -/
def pA : Proposal :=
  { owner := "alice"
    id := "p1"
    title := "t"
    description := "d"
    voters := []
    yesVotes := 0
    noVotes := 0
    created_at := 1
    updated_at := none }

/-- A one-proposal storage holding `pA` under its id. -/
def s1 : Store := Store.empty.set "p1" pA

/-- Store well-formedness: every stored proposal's `id` equals its key. -/
def storeWF (s : Store) : Prop :=
  ∀ k p, s.get k = some p → p.id = k

end ICPDAO

namespace ICPDAO

/-! ## Helper lemmas about store well-formedness -/

theorem storeWF_empty : storeWF Store.empty := by
  intro k p h
  simp [Store.get, Store.empty] at h

theorem storeWF_set {s : Store} {k : String} {p : Proposal}
    (h : storeWF s) (hid : p.id = k) : storeWF (s.set k p) := by
  intro q v hq
  simp only [Store.get, Store.set] at hq
  by_cases hqk : q = k
  · rw [if_pos hqk] at hq
    injection hq with hv
    rw [← hv, hid, hqk]
  · rw [if_neg hqk] at hq
    exact h q v hq

theorem storeWF_del {s : Store} {k : String} (h : storeWF s) :
    storeWF (s.del k) := by
  intro q v hq
  simp only [Store.get, Store.del] at hq
  by_cases hqk : q = k
  · rw [if_pos hqk] at hq
    exact absurd hq (by simp)
  · rw [if_neg hqk] at hq
    exact h q v hq

theorem s1_storeWF : storeWF s1 :=
  storeWF_set storeWF_empty rfl

theorem ownerMatches_false (o : Option Proposal) (user : String) :
    ownerMatches o user = false := by
  cases o <;> simp [ownerMatches, principalRefEq]

end ICPDAO

namespace ICPDAO

/-! ## Claim theorems -/

/-- Claim C1 (refuted, code bug): the spec invariant
`yesVotes + noVotes = |voters|` FAILS after a single successful valid vote:
`bob` (not the owner, not in `voters`) votes yes on `p1`; the call succeeds
and the stored record then has `yesVotes + noVotes = 1` while `voters` is
still empty, because neither `voteYes` nor `voteNo` ever appends the caller
to `voters`. -/
theorem voteYes_breaks_tally_invariant :
    (voteYes s1 "bob" 5 "p1").1 =
      Result.Ok { pA with yesVotes := 1, updated_at := some 5 } ∧
    (voteYes s1 "bob" 5 "p1").2.get "p1" =
      some { pA with yesVotes := 1, updated_at := some 5 } ∧
    ({ pA with yesVotes := 1, updated_at := some 5 } : Proposal).yesVotes +
        ({ pA with yesVotes := 1, updated_at := some 5 } : Proposal).noVotes ≠
      ({ pA with yesVotes := 1, updated_at := some 5 } : Proposal).voters.length := by
  refine ⟨by decide, by decide, by decide⟩

/-- Claim C2 (refuted, code bug): a successful `voteYes` (resp. `voteNo`) by
a non-owner first-time caller increments the matching counter, stamps
`updated_at`, persists and returns the updated record — but it does NOT add
the caller to `voters`: after `bob` votes on `p1`, `voters` is unchanged and
does not contain `"bob"`. -/
theorem vote_does_not_record_voter :
    (voteYes s1 "bob" 5 "p1").2.get "p1" =
      some { pA with yesVotes := 1, updated_at := some 5 } ∧
    (voteNo s1 "bob" 5 "p1").2.get "p1" =
      some { pA with noVotes := 1, updated_at := some 5 } ∧
    ({ pA with yesVotes := 1, updated_at := some 5 } : Proposal).voters.contains "bob" = false ∧
    ({ pA with noVotes := 1, updated_at := some 5 } : Proposal).voters.contains "bob" = false := by
  refine ⟨by decide, by decide, by decide, by decide⟩

/-- Claim C3 (refuted, code bug): a second vote by the same caller on the
same proposal is NOT rejected with "Already voted": since `voters` is never
populated, `bob`'s second `voteYes` on `p1` succeeds and increments
`yesVotes` to 2. -/
theorem second_vote_by_same_caller_succeeds :
    (voteYes (voteYes s1 "bob" 5 "p1").2 "bob" 6 "p1").1 =
      Result.Ok { pA with yesVotes := 2, updated_at := some 6 } ∧
    (voteYes (voteYes s1 "bob" 5 "p1").2 "bob" 6 "p1").2.get "p1" =
      some { pA with yesVotes := 2, updated_at := some 6 } := by
  refine ⟨by decide, by decide⟩

/-- Claim C4 (confirmed): when the stored proposal's owner equals the
caller, both `voteYes` and `voteNo` fail with the owner-vote error and
leave the storage exactly as it was. -/
theorem owner_cannot_vote (s : Store) (caller : String) (now : Nat)
    (id : String) (p : Proposal) (hget : s.get id = some p)
    (hown : p.owner = caller) :
    voteYes s caller now id =
      (Result.Err "Owners cannot vote for their own proposal", s) ∧
    voteNo s caller now id =
      (Result.Err "Owners cannot vote for their own proposal", s) := by
  constructor
  · simp [voteYes, hget, hown]
  · simp [voteNo, hget, hown]

/-- Witness for C4: `alice`, the owner of `p1`, cannot vote on it. -/
theorem owner_cannot_vote_witness :
    voteYes s1 "alice" 5 "p1" =
      (Result.Err "Owners cannot vote for their own proposal", s1) ∧
    voteNo s1 "alice" 5 "p1" =
      (Result.Err "Owners cannot vote for their own proposal", s1) :=
  owner_cannot_vote s1 "alice" 5 "p1" pA (by decide) (by decide)

/-- Claim C5 (confirmed): `createProposal` fails with the validation error
when the title or the description is empty and leaves the storage
untouched; with both fields non-empty it returns and stores (under the
fresh id) a record whose owner is the caller, with zero counters, an empty
voter set and no `updated_at`. -/
theorem createProposal_spec (s : Store) (caller : String) (now : Nat)
    (newId : String) (t d : String) :
    (t = "" ∨ d = "" →
      createProposal s caller now newId ⟨t, d⟩ =
        (Result.Err "Missing required fields", s)) ∧
    (t ≠ "" → d ≠ "" →
      ∃ p : Proposal,
        createProposal s caller now newId ⟨t, d⟩ =
          (Result.Ok p, s.set newId p) ∧
        p.id = newId ∧ p.owner = caller ∧ p.title = t ∧ p.description = d ∧
        p.yesVotes = 0 ∧ p.noVotes = 0 ∧ p.voters = [] ∧
        p.created_at = now ∧ p.updated_at = none) := by
  constructor
  · intro h
    simp only [createProposal]
    rw [if_pos h]
  · intro ht hd
    refine ⟨⟨caller, newId, t, d, [], 0, 0, now, none⟩, ?_, rfl, rfl, rfl,
      rfl, rfl, rfl, rfl, rfl, rfl⟩
    simp only [createProposal]
    rw [if_neg (by simp [ht, hd])]

/-- Witness for C5: an empty title is rejected; a fully filled payload
creates and stores the fresh zero-vote record. -/
theorem createProposal_spec_witness :
    createProposal s1 "carol" 9 "p2" ⟨"", "x"⟩ =
      (Result.Err "Missing required fields", s1) ∧
    ∃ p : Proposal,
      createProposal s1 "carol" 9 "p2" ⟨"a", "b"⟩ = (Result.Ok p, s1.set "p2" p) ∧
      p.id = "p2" ∧ p.owner = "carol" ∧ p.title = "a" ∧ p.description = "b" ∧
      p.yesVotes = 0 ∧ p.noVotes = 0 ∧ p.voters = [] ∧
      p.created_at = 9 ∧ p.updated_at = none :=
  ⟨(createProposal_spec s1 "carol" 9 "p2" "" "x").1 (Or.inl rfl),
   (createProposal_spec s1 "carol" 9 "p2" "a" "b").2 (by decide) (by decide)⟩

end ICPDAO

namespace ICPDAO

/-- Claim C6 (refuted, code bug): deleting a proposal is impossible for
everyone, the owner included.  The delete guard compares two `Principal`
objects with JavaScript `==` — reference equality between distinct decoded
instances, never true — so `alice`, the owner of `p1`, gets the same
not-found-style error as the non-owner `bob`, and the proposal stays in
the store in both cases. -/
theorem owner_delete_fails :
    (deleteProposal s1 "p1" "alice").1 =
      Result.Err ("couldn" ++ apos ++ "t delete a proposal ,proposal not found.") ∧
    (deleteProposal s1 "p1" "alice").2.get "p1" = some pA ∧
    (deleteProposal s1 "p1" "bob").1 = (deleteProposal s1 "p1" "alice").1 ∧
    (deleteProposal s1 "p1" "bob").2.get "p1" = some pA := by
  refine ⟨by decide, by decide, by decide, by decide⟩

/-- Claim C7 (confirmed): `updateProposal` fails with "Invalid payload"
whenever `isValidPayload` rejects the payload — in particular whenever the
title is blank after trimming — and fails not-found when the proposal is
absent; in every one of these failure cases the storage (hence the stored
record) is exactly unchanged. -/
theorem updateProposal_rejects_invalid (s : Store) (now : Nat) (id : String)
    (payload : ProposalPayload) :
    (isValidPayload payload = false →
      updateProposal s now id payload = (Result.Err "Invalid payload", s)) ∧
    (jsTrim payload.title = "" →
      updateProposal s now id payload = (Result.Err "Invalid payload", s)) ∧
    (isValidPayload payload = true → s.get id = none →
      updateProposal s now id payload =
        (Result.Err ("couldn" ++ apos ++ "t update a proposal with id=" ++ id ++
          ". proposal not found"), s)) := by
  refine ⟨?_, ?_, ?_⟩
  · intro h
    simp [updateProposal, h]
  · intro h
    have hv : isValidPayload payload = false := by
      simp [isValidPayload, h]
    simp [updateProposal, hv]
  · intro hv hget
    simp [updateProposal, hv, hget]

/-- Witness for C7: the blank title `"  "` is rejected leaving `s1`
unchanged, and a valid payload on the absent id `zzz` fails not-found. -/
theorem updateProposal_rejects_invalid_witness :
    updateProposal s1 7 "p1" ⟨"  ", "d2"⟩ = (Result.Err "Invalid payload", s1) ∧
    updateProposal s1 7 "p1" ⟨"  ", "d2"⟩ = (Result.Err "Invalid payload", s1) ∧
    updateProposal s1 7 "zzz" ⟨"t2", "d2"⟩ =
      (Result.Err ("couldn" ++ apos ++ "t update a proposal with id=" ++ "zzz" ++
        ". proposal not found"), s1) :=
  ⟨(updateProposal_rejects_invalid s1 7 "p1" ⟨"  ", "d2"⟩).1 (by decide),
   (updateProposal_rejects_invalid s1 7 "p1" ⟨"  ", "d2"⟩).2.1 (by decide),
   (updateProposal_rejects_invalid s1 7 "zzz" ⟨"t2", "d2"⟩).2.2 (by decide) (by decide)⟩

/-- Claim C8 (confirmed): a successful `updateProposal` on a stored
proposal stores and returns a record in which only `title`, `description`
and `updated_at` change; `owner`, `id`, `voters`, `yesVotes`, `noVotes`
and `created_at` are those of the old record. -/
theorem updateProposal_frame (s : Store) (now : Nat) (id : String)
    (payload : ProposalPayload) (p : Proposal)
    (hv : isValidPayload payload = true) (hget : s.get id = some p) :
    ∃ q : Proposal,
      updateProposal s now id payload = (Result.Ok q, s.set p.id q) ∧
      q.title = payload.title ∧ q.description = payload.description ∧
      q.updated_at = some now ∧
      q.owner = p.owner ∧ q.id = p.id ∧ q.voters = p.voters ∧
      q.yesVotes = p.yesVotes ∧ q.noVotes = p.noVotes ∧
      q.created_at = p.created_at := by
  refine ⟨⟨p.owner, p.id, payload.title, payload.description, p.voters,
    p.yesVotes, p.noVotes, p.created_at, some now⟩, ?_, rfl, rfl, rfl, rfl,
    rfl, rfl, rfl, rfl, rfl⟩
  simp [updateProposal, hv, hget]

/-- Witness for C8: updating `p1` with `⟨"t2", "d2"⟩` replaces only the
text fields and the timestamp. -/
theorem updateProposal_frame_witness :
    ∃ q : Proposal,
      updateProposal s1 7 "p1" ⟨"t2", "d2"⟩ = (Result.Ok q, s1.set "p1" q) ∧
      q.title = "t2" ∧ q.description = "d2" ∧ q.updated_at = some 7 ∧
      q.owner = pA.owner ∧ q.id = pA.id ∧ q.voters = pA.voters ∧
      q.yesVotes = pA.yesVotes ∧ q.noVotes = pA.noVotes ∧
      q.created_at = pA.created_at :=
  updateProposal_frame s1 7 "p1" ⟨"t2", "d2"⟩ pA (by decide) (by decide)

end ICPDAO

namespace ICPDAO

/-- Claim C9 (confirmed): every operation is a total function into the
tagged `Result` type (failures are returned, never thrown), and whenever
any of `createProposal`, `voteYes`, `voteNo`, `updateProposal` or
`deleteProposal` returns `Result.Err`, the storage — and with it every
stored proposal — is exactly the storage before the call. -/
theorem err_leaves_store_unchanged (s : Store) (caller user newId id : String)
    (now : Nat) (payload : ProposalPayload) :
    ((createProposal s caller now newId payload).1.isErr = true →
      (createProposal s caller now newId payload).2 = s) ∧
    ((voteYes s caller now id).1.isErr = true →
      (voteYes s caller now id).2 = s) ∧
    ((voteNo s caller now id).1.isErr = true →
      (voteNo s caller now id).2 = s) ∧
    ((updateProposal s now id payload).1.isErr = true →
      (updateProposal s now id payload).2 = s) ∧
    ((deleteProposal s id user).1.isErr = true →
      (deleteProposal s id user).2 = s) := by
  refine ⟨?_, ?_, ?_, ?_, ?_⟩
  · intro h
    by_cases hc : payload.title = "" ∨ payload.description = ""
    · simp [createProposal, hc]
    · simp [createProposal, hc, Result.isErr] at h
  · intro h
    cases hget : s.get id with
    | none => simp [voteYes, hget]
    | some p =>
      by_cases h1 : p.owner = caller
      · simp [voteYes, hget, h1]
      · by_cases h2 : caller ∈ p.voters
        · simp [voteYes, hget, h1, h2]
        · simp [voteYes, hget, h1, h2, Result.isErr] at h
  · intro h
    cases hget : s.get id with
    | none => simp [voteNo, hget]
    | some p =>
      by_cases h1 : p.owner = caller
      · simp [voteNo, hget, h1]
      · by_cases h2 : caller ∈ p.voters
        · simp [voteNo, hget, h1, h2]
        · simp [voteNo, hget, h1, h2, Result.isErr] at h
  · intro h
    by_cases hv : isValidPayload payload = false
    · simp [updateProposal, hv]
    · cases hget : s.get id with
      | none => simp [updateProposal, hv, hget]
      | some p => simp [updateProposal, hv, hget, Result.isErr] at h
  · intro h
    by_cases h0 : id = ""
    · simp [deleteProposal, h0]
    · simp [deleteProposal, h0, ownerMatches_false]

/-- Witness for C9: one failing run of each of the five operations on the
one-proposal store `s1`, each leaving `s1` unchanged. -/
theorem err_leaves_store_unchanged_witness :
    (createProposal s1 "alice" 5 "p2" ⟨"", ""⟩).2 = s1 ∧
    (voteYes s1 "alice" 5 "p1").2 = s1 ∧
    (voteNo s1 "alice" 5 "p1").2 = s1 ∧
    (updateProposal s1 5 "p1" ⟨"", ""⟩).2 = s1 ∧
    (deleteProposal s1 "p1" "bob").2 = s1 :=
  ⟨(err_leaves_store_unchanged s1 "alice" "bob" "p2" "p1" 5 ⟨"", ""⟩).1 (by decide),
   (err_leaves_store_unchanged s1 "alice" "bob" "p2" "p1" 5 ⟨"", ""⟩).2.1 (by decide),
   (err_leaves_store_unchanged s1 "alice" "bob" "p2" "p1" 5 ⟨"", ""⟩).2.2.1 (by decide),
   (err_leaves_store_unchanged s1 "alice" "bob" "p2" "p1" 5 ⟨"", ""⟩).2.2.2.1 (by decide),
   (err_leaves_store_unchanged s1 "alice" "bob" "p2" "p1" 5 ⟨"", ""⟩).2.2.2.2 (by decide)⟩

/-- Claim C10 (confirmed): if every stored proposal's `id` equals its key,
then the same holds after any of the five mutating operations — every
insert uses the record's own `id` as the key. -/
theorem ops_preserve_storeWF (s : Store) (caller user newId id : String)
    (now : Nat) (payload : ProposalPayload) (h : storeWF s) :
    storeWF (createProposal s caller now newId payload).2 ∧
    storeWF (voteYes s caller now id).2 ∧
    storeWF (voteNo s caller now id).2 ∧
    storeWF (updateProposal s now id payload).2 ∧
    storeWF (deleteProposal s id user).2 := by
  refine ⟨?_, ?_, ?_, ?_, ?_⟩
  · by_cases hc : payload.title = "" ∨ payload.description = ""
    · simpa [createProposal, hc] using h
    · simp only [createProposal, hc, if_false]
      exact storeWF_set h rfl
  · cases hget : s.get id with
    | none => simpa [voteYes, hget] using h
    | some p =>
      by_cases h1 : p.owner = caller
      · simpa [voteYes, hget, h1] using h
      · by_cases h2 : caller ∈ p.voters
        · simpa [voteYes, hget, h1, h2] using h
        · simp only [voteYes, hget]
          rw [if_neg h1, if_neg (by simpa using h2)]
          exact storeWF_set h rfl
  · cases hget : s.get id with
    | none => simpa [voteNo, hget] using h
    | some p =>
      by_cases h1 : p.owner = caller
      · simpa [voteNo, hget, h1] using h
      · by_cases h2 : caller ∈ p.voters
        · simpa [voteNo, hget, h1, h2] using h
        · simp only [voteNo, hget]
          rw [if_neg h1, if_neg (by simpa using h2)]
          exact storeWF_set h rfl
  · by_cases hv : isValidPayload payload = false
    · simpa [updateProposal, hv] using h
    · cases hget : s.get id with
      | none => simpa [updateProposal, hv, hget] using h
      | some p =>
        simp only [updateProposal, hget]
        rw [if_neg hv]
        exact storeWF_set h rfl
  · by_cases h0 : id = ""
    · simpa [deleteProposal, h0] using h
    · simpa [deleteProposal, h0, ownerMatches_false] using h

/-- Witness for C10: the key-equals-id invariant of the concrete store `s1`
is preserved by a concrete run of every operation. -/
theorem ops_preserve_storeWF_witness :
    storeWF (createProposal s1 "bob" 5 "p2" ⟨"a", "b"⟩).2 ∧
    storeWF (voteYes s1 "bob" 5 "p1").2 ∧
    storeWF (voteNo s1 "bob" 5 "p1").2 ∧
    storeWF (updateProposal s1 5 "p1" ⟨"a", "b"⟩).2 ∧
    storeWF (deleteProposal s1 "p1" "alice").2 :=
  ops_preserve_storeWF s1 "bob" "alice" "p2" "p1" 5 ⟨"a", "b"⟩ s1_storeWF

end ICPDAO
